import Mathlib

/-!
Verification of the address-hashing core of `src/gpgpu-sim/hashing.cc`.

The C++ file defines three pure functions:

* `ipoly_hash_function(higher_bits, index, bank_set_num)` — one fixed
  GF(2) bit-matrix per supported bank count (8, 16, 32, 64, 128, 256);
  each output bit of a `std::bitset` accumulator is assigned the XOR of a
  fixed selection of bits of `higher_bits` followed by one index bit.
  Unsupported bank counts hit an always-failing `assert` branch.
* `bitwise_hash_function(higher_bits, index, bank_set_num)` — returns
  `index ^ (higher_bits & (bank_set_num - 1))` with no validation.
* `PAE_hash_function(higher_bits, index, bank_set_num)` — one fixed
  bit-matrix, supported only for 32 banks; the other branch hits
  `assert(0)`.

Embedding conventions:

* Machine integers become `Nat`; `std::bitset<64> a(higher_bits)` bit
  reads `a[k]` become `Nat.testBit higher_bits k`, and likewise for the
  index bitsets (only bits below the bitset width are ever read, where
  `testBit` agrees with the truncating `bitset` constructor).
* A row `a[k1] ^ a[k2] ^ ... ^ b[j]` of XORed bits becomes
  `Bool.xor (parityAt a [k1, k2, ...]) (Nat.testBit i j)`; the lists
  reproduce the bit positions of the source verbatim, in source order,
  including the duplicated index bits of the PAE rows.
* `bitset<w>::to_ulong()` on the accumulator becomes `ofBits3` ...
  `ofBits8` (weighted sums of the output bits, bit 0 least significant).
* The two fallible functions return `Option Nat`: the always-failing
  `assert` branches (unsupported bank count) are modelled as `none`,
  every other path as `some` of the hashed index.
* `bitwise_hash_function` is total in the source; its C++ arithmetic is
  32-bit unsigned (`index` and `bank_set_num` are `unsigned`, the return
  type is `unsigned`), so `bank_set_num - 1` wraps modulo `2^32` and the
  final result is truncated modulo `2^32`.
-/

/-- XOR of a list of bits (models a left-to-right chain `x1 ^ x2 ^ ...`
of XORed bits in the C++ source; XOR is associative and commutative, so
the fold order is immaterial). -/
def xorBits (l : List Bool) : Bool := l.foldr Bool.xor false

/-- `parityAt x ks` is the XOR of the bits of `x` at the positions
listed in `ks` — the Lean rendering of a row `a[k1] ^ a[k2] ^ ...` of
`std::bitset` reads in the source. -/
def parityAt (x : Nat) (ks : List Nat) : Bool := xorBits (ks.map x.testBit)

/-- `bitset<3>::to_ulong()`: value of a 3-bit accumulator. -/
def ofBits3 (b0 b1 b2 : Bool) : Nat :=
  b0.toNat + 2 * b1.toNat + 4 * b2.toNat

/-- `bitset<4>::to_ulong()`: value of a 4-bit accumulator. -/
def ofBits4 (b0 b1 b2 b3 : Bool) : Nat :=
  b0.toNat + 2 * b1.toNat + 4 * b2.toNat + 8 * b3.toNat

/-- `bitset<5>::to_ulong()`: value of a 5-bit accumulator. -/
def ofBits5 (b0 b1 b2 b3 b4 : Bool) : Nat :=
  b0.toNat + 2 * b1.toNat + 4 * b2.toNat + 8 * b3.toNat + 16 * b4.toNat

/-- `bitset<6>::to_ulong()`: value of a 6-bit accumulator. -/
def ofBits6 (b0 b1 b2 b3 b4 b5 : Bool) : Nat :=
  b0.toNat + 2 * b1.toNat + 4 * b2.toNat + 8 * b3.toNat + 16 * b4.toNat +
    32 * b5.toNat

/-- `bitset<7>::to_ulong()`: value of a 7-bit accumulator. -/
def ofBits7 (b0 b1 b2 b3 b4 b5 b6 : Bool) : Nat :=
  b0.toNat + 2 * b1.toNat + 4 * b2.toNat + 8 * b3.toNat + 16 * b4.toNat +
    32 * b5.toNat + 64 * b6.toNat

/-- `bitset<8>::to_ulong()`: value of an 8-bit accumulator. -/
def ofBits8 (b0 b1 b2 b3 b4 b5 b6 b7 : Bool) : Nat :=
  b0.toNat + 2 * b1.toNat + 4 * b2.toNat + 8 * b3.toNat + 16 * b4.toNat +
    32 * b5.toNat + 64 * b6.toNat + 128 * b7.toNat

/-- The `bank_set_num == 8` branch of `ipoly_hash_function`. -/
def ipoly8 (a i : Nat) : Nat :=
  ofBits3
    (Bool.xor (parityAt a [11, 10, 9, 7, 4, 3, 2, 0]) (i.testBit 0))
    (Bool.xor (parityAt a [12, 9, 8, 7, 5, 2, 1, 0]) (i.testBit 1))
    (Bool.xor (parityAt a [13, 10, 9, 8, 6, 3, 2, 1]) (i.testBit 2))

/-- The `bank_set_num == 16` branch of `ipoly_hash_function`. -/
def ipoly16 (a i : Nat) : Nat :=
  ofBits4
    (Bool.xor (parityAt a [11, 10, 9, 8, 6, 4, 3, 0]) (i.testBit 0))
    (Bool.xor (parityAt a [12, 8, 7, 6, 5, 3, 1, 0]) (i.testBit 1))
    (Bool.xor (parityAt a [9, 8, 7, 6, 4, 2, 1]) (i.testBit 2))
    (Bool.xor (parityAt a [10, 9, 8, 7, 5, 3, 2]) (i.testBit 3))

/-- The `bank_set_num == 32` branch of `ipoly_hash_function`. -/
def ipoly32 (a i : Nat) : Nat :=
  ofBits5
    (Bool.xor (parityAt a [13, 12, 11, 10, 9, 6, 5, 3, 0]) (i.testBit 0))
    (Bool.xor (parityAt a [14, 13, 12, 11, 10, 7, 6, 4, 1]) (i.testBit 1))
    (Bool.xor (parityAt a [14, 10, 9, 8, 7, 6, 3, 2, 0]) (i.testBit 2))
    (Bool.xor (parityAt a [11, 10, 9, 8, 7, 4, 3, 1]) (i.testBit 3))
    (Bool.xor (parityAt a [12, 11, 10, 9, 8, 5, 4, 2]) (i.testBit 4))

/-- The `bank_set_num == 64` branch of `ipoly_hash_function`. -/
def ipoly64 (a i : Nat) : Nat :=
  ofBits6
    (Bool.xor (parityAt a [18, 17, 16, 15, 12, 10, 6, 5, 0]) (i.testBit 0))
    (Bool.xor (parityAt a [15, 13, 12, 11, 10, 7, 5, 1, 0]) (i.testBit 1))
    (Bool.xor (parityAt a [16, 14, 13, 12, 11, 8, 6, 2, 1]) (i.testBit 2))
    (Bool.xor (parityAt a [17, 15, 14, 13, 12, 9, 7, 3, 2]) (i.testBit 3))
    (Bool.xor (parityAt a [18, 16, 15, 14, 13, 10, 8, 4, 3]) (i.testBit 4))
    (Bool.xor (parityAt a [17, 16, 15, 14, 11, 9, 5, 4]) (i.testBit 5))

/-- The `bank_set_num == 128` branch of `ipoly_hash_function`. -/
def ipoly128 (a i : Nat) : Nat :=
  ofBits7
    (Bool.xor (parityAt a [21, 20, 19, 18, 14, 12, 7, 6, 0]) (i.testBit 0))
    (Bool.xor (parityAt a [22, 18, 15, 14, 13, 12, 8, 6, 1, 0]) (i.testBit 1))
    (Bool.xor (parityAt a [19, 16, 15, 14, 13, 9, 7, 2, 1]) (i.testBit 2))
    (Bool.xor (parityAt a [20, 17, 16, 15, 14, 10, 8, 3, 2]) (i.testBit 3))
    (Bool.xor (parityAt a [21, 18, 17, 16, 15, 11, 9, 4, 3]) (i.testBit 4))
    (Bool.xor (parityAt a [22, 19, 18, 17, 16, 12, 10, 5, 4]) (i.testBit 5))
    (Bool.xor (parityAt a [20, 19, 18, 17, 13, 11, 6, 5]) (i.testBit 6))

/-- The `bank_set_num == 256` branch of `ipoly_hash_function`. -/
def ipoly256 (a i : Nat) : Nat :=
  ofBits8
    (Bool.xor (parityAt a [21, 20, 19, 17, 16, 13, 12, 10, 7, 5, 4, 0]) (i.testBit 0))
    (Bool.xor (parityAt a [19, 18, 16, 14, 12, 11, 10, 8, 7, 6, 4, 1, 0]) (i.testBit 1))
    (Bool.xor (parityAt a [20, 19, 17, 15, 13, 12, 11, 9, 8, 7, 5, 2, 1]) (i.testBit 2))
    (Bool.xor (parityAt a [19, 18, 17, 14, 9, 8, 7, 6, 5, 4, 3, 2, 0]) (i.testBit 3))
    (Bool.xor (parityAt a [21, 18, 17, 16, 15, 13, 12, 9, 8, 6, 3, 1, 0]) (i.testBit 4))
    (Bool.xor (parityAt a [19, 18, 17, 16, 14, 13, 10, 9, 7, 4, 2, 1]) (i.testBit 5))
    (Bool.xor (parityAt a [20, 19, 18, 17, 15, 14, 11, 10, 8, 5, 3, 2]) (i.testBit 6))
    (Bool.xor (parityAt a [21, 20, 19, 18, 16, 15, 12, 11, 9, 6, 4, 3]) (i.testBit 7))

/-- `ipoly_hash_function` from `hashing.cc`: dispatch on the bank count
in source order; the final `else` branch (an always-failing `assert`
reporting an unsupported number of banks) is modelled as `none`. -/
def ipoly_hash_function (higher_bits index bank_set_num : Nat) : Option Nat :=
  if bank_set_num = 8 then some (ipoly8 higher_bits index)
  else if bank_set_num = 16 then some (ipoly16 higher_bits index)
  else if bank_set_num = 32 then some (ipoly32 higher_bits index)
  else if bank_set_num = 64 then some (ipoly64 higher_bits index)
  else if bank_set_num = 128 then some (ipoly128 higher_bits index)
  else if bank_set_num = 256 then some (ipoly256 higher_bits index)
  else none

/-- `bitwise_hash_function` from `hashing.cc`:
`(index) ^ (higher_bits & (bank_set_num - 1))` computed in C++ unsigned
arithmetic — `bank_set_num - 1` wraps modulo `2^32` (`bank_set_num` is a
32-bit `unsigned`) and the result is truncated to the 32-bit `unsigned`
return type. -/
def bitwise_hash_function (higher_bits index bank_set_num : Nat) : Nat :=
  (index ^^^ (higher_bits &&& ((bank_set_num + 4294967295) % 4294967296))) %
    4294967296

/-- The `bank_set_num == 32` branch of `PAE_hash_function`, with the
duplicated index bits of the source rows reproduced verbatim. -/
def pae32 (a i : Nat) : Nat :=
  ofBits5
    (Bool.xor (parityAt a [13, 10, 9, 5, 0]) (parityAt i [3, 0, 0]))
    (Bool.xor (parityAt a [12, 11, 6, 1]) (parityAt i [3, 2, 1, 1]))
    (Bool.xor (parityAt a [14, 9, 8, 7, 2]) (parityAt i [1, 2]))
    (Bool.xor (parityAt a [11, 10, 8, 3]) (parityAt i [2, 3, 3]))
    (Bool.xor (parityAt a [12, 9, 8, 5, 4]) (parityAt i [1, 0, 4]))

/-- `PAE_hash_function` from `hashing.cc`: only `bank_set_num == 32` is
supported; the `assert(0)` branch is modelled as `none`. -/
def PAE_hash_function (higher_bits index bank_set_num : Nat) : Option Nat :=
  if bank_set_num = 32 then some (pae32 higher_bits index) else none

/-! ### Generic bit-level lemmas -/

theorem bool_xor_xor_comm :
    ∀ p q r s : Bool,
      Bool.xor (Bool.xor p q) (Bool.xor r s) =
        Bool.xor (Bool.xor p r) (Bool.xor q s) := by
  decide

theorem parityAt_zero (ks : List Nat) : parityAt 0 ks = false := by
  induction ks with
  | nil => rfl
  | cons k t ih =>
      simp only [parityAt, xorBits, List.map_cons, List.foldr_cons,
        Nat.zero_testBit, Bool.false_xor] at ih ⊢
      exact ih

theorem parityAt_xor (x y : Nat) (ks : List Nat) :
    parityAt (x ^^^ y) ks = Bool.xor (parityAt x ks) (parityAt y ks) := by
  induction ks with
  | nil => rfl
  | cons k t ih =>
      simp only [parityAt, xorBits, List.map_cons, List.foldr_cons,
        Nat.testBit_xor] at ih ⊢
      rw [ih]
      exact bool_xor_xor_comm _ _ _ _

theorem ofBits3_xor : ∀ x0 x1 x2 y0 y1 y2 : Bool,
    ofBits3 (Bool.xor x0 y0) (Bool.xor x1 y1) (Bool.xor x2 y2) =
      ofBits3 x0 x1 x2 ^^^ ofBits3 y0 y1 y2 := by
  decide

theorem ofBits4_xor : ∀ x0 x1 x2 x3 y0 y1 y2 y3 : Bool,
    ofBits4 (Bool.xor x0 y0) (Bool.xor x1 y1) (Bool.xor x2 y2) (Bool.xor x3 y3) =
      ofBits4 x0 x1 x2 x3 ^^^ ofBits4 y0 y1 y2 y3 := by
  decide

theorem ofBits5_xor : ∀ x0 x1 x2 x3 x4 y0 y1 y2 y3 y4 : Bool,
    ofBits5 (Bool.xor x0 y0) (Bool.xor x1 y1) (Bool.xor x2 y2) (Bool.xor x3 y3)
        (Bool.xor x4 y4) =
      ofBits5 x0 x1 x2 x3 x4 ^^^ ofBits5 y0 y1 y2 y3 y4 := by
  decide

theorem ofBits6_xor : ∀ x0 x1 x2 x3 x4 x5 y0 y1 y2 y3 y4 y5 : Bool,
    ofBits6 (Bool.xor x0 y0) (Bool.xor x1 y1) (Bool.xor x2 y2) (Bool.xor x3 y3)
        (Bool.xor x4 y4) (Bool.xor x5 y5) =
      ofBits6 x0 x1 x2 x3 x4 x5 ^^^ ofBits6 y0 y1 y2 y3 y4 y5 := by
  decide

theorem ofBits7_xor : ∀ x0 x1 x2 x3 x4 x5 x6 y0 y1 y2 y3 y4 y5 y6 : Bool,
    ofBits7 (Bool.xor x0 y0) (Bool.xor x1 y1) (Bool.xor x2 y2) (Bool.xor x3 y3)
        (Bool.xor x4 y4) (Bool.xor x5 y5) (Bool.xor x6 y6) =
      ofBits7 x0 x1 x2 x3 x4 x5 x6 ^^^ ofBits7 y0 y1 y2 y3 y4 y5 y6 := by
  decide

theorem ofBits8_xor : ∀ x0 x1 x2 x3 x4 x5 x6 x7 y0 y1 y2 y3 y4 y5 y6 y7 : Bool,
    ofBits8 (Bool.xor x0 y0) (Bool.xor x1 y1) (Bool.xor x2 y2) (Bool.xor x3 y3)
        (Bool.xor x4 y4) (Bool.xor x5 y5) (Bool.xor x6 y6) (Bool.xor x7 y7) =
      ofBits8 x0 x1 x2 x3 x4 x5 x6 x7 ^^^ ofBits8 y0 y1 y2 y3 y4 y5 y6 y7 := by
  decide

theorem ofBits3_lt : ∀ b0 b1 b2 : Bool, ofBits3 b0 b1 b2 < 8 := by decide

theorem ofBits4_lt : ∀ b0 b1 b2 b3 : Bool, ofBits4 b0 b1 b2 b3 < 16 := by decide

theorem ofBits5_lt : ∀ b0 b1 b2 b3 b4 : Bool, ofBits5 b0 b1 b2 b3 b4 < 32 := by
  decide

theorem ofBits6_lt : ∀ b0 b1 b2 b3 b4 b5 : Bool,
    ofBits6 b0 b1 b2 b3 b4 b5 < 64 := by
  decide

theorem ofBits7_lt : ∀ b0 b1 b2 b3 b4 b5 b6 : Bool,
    ofBits7 b0 b1 b2 b3 b4 b5 b6 < 128 := by
  decide

theorem ofBits8_lt : ∀ b0 b1 b2 b3 b4 b5 b6 b7 : Bool,
    ofBits8 b0 b1 b2 b3 b4 b5 b6 b7 < 256 := by
  decide

theorem ofBits3_testBit (i : Nat) :
    ofBits3 (i.testBit 0) (i.testBit 1) (i.testBit 2) = i % 8 := by
  have h0 := Nat.toNat_testBit i 0
  have h1 := Nat.toNat_testBit i 1
  have h2 := Nat.toNat_testBit i 2
  have e0 : (2:Nat) ^ 0 = 1 := rfl
  have e1 : (2:Nat) ^ 1 = 2 := rfl
  have e2 : (2:Nat) ^ 2 = 4 := rfl
  rw [e0] at h0
  rw [e1] at h1
  rw [e2] at h2
  unfold ofBits3
  omega

theorem ofBits4_testBit (i : Nat) :
    ofBits4 (i.testBit 0) (i.testBit 1) (i.testBit 2) (i.testBit 3) = i % 16 := by
  have h0 := Nat.toNat_testBit i 0
  have h1 := Nat.toNat_testBit i 1
  have h2 := Nat.toNat_testBit i 2
  have h3 := Nat.toNat_testBit i 3
  have e0 : (2:Nat) ^ 0 = 1 := rfl
  have e1 : (2:Nat) ^ 1 = 2 := rfl
  have e2 : (2:Nat) ^ 2 = 4 := rfl
  have e3 : (2:Nat) ^ 3 = 8 := rfl
  rw [e0] at h0
  rw [e1] at h1
  rw [e2] at h2
  rw [e3] at h3
  unfold ofBits4
  omega

theorem ofBits5_testBit (i : Nat) :
    ofBits5 (i.testBit 0) (i.testBit 1) (i.testBit 2) (i.testBit 3)
      (i.testBit 4) = i % 32 := by
  have h0 := Nat.toNat_testBit i 0
  have h1 := Nat.toNat_testBit i 1
  have h2 := Nat.toNat_testBit i 2
  have h3 := Nat.toNat_testBit i 3
  have h4 := Nat.toNat_testBit i 4
  have e0 : (2:Nat) ^ 0 = 1 := rfl
  have e1 : (2:Nat) ^ 1 = 2 := rfl
  have e2 : (2:Nat) ^ 2 = 4 := rfl
  have e3 : (2:Nat) ^ 3 = 8 := rfl
  have e4 : (2:Nat) ^ 4 = 16 := rfl
  rw [e0] at h0
  rw [e1] at h1
  rw [e2] at h2
  rw [e3] at h3
  rw [e4] at h4
  unfold ofBits5
  omega

theorem ofBits6_testBit (i : Nat) :
    ofBits6 (i.testBit 0) (i.testBit 1) (i.testBit 2) (i.testBit 3)
      (i.testBit 4) (i.testBit 5) = i % 64 := by
  have h0 := Nat.toNat_testBit i 0
  have h1 := Nat.toNat_testBit i 1
  have h2 := Nat.toNat_testBit i 2
  have h3 := Nat.toNat_testBit i 3
  have h4 := Nat.toNat_testBit i 4
  have h5 := Nat.toNat_testBit i 5
  have e0 : (2:Nat) ^ 0 = 1 := rfl
  have e1 : (2:Nat) ^ 1 = 2 := rfl
  have e2 : (2:Nat) ^ 2 = 4 := rfl
  have e3 : (2:Nat) ^ 3 = 8 := rfl
  have e4 : (2:Nat) ^ 4 = 16 := rfl
  have e5 : (2:Nat) ^ 5 = 32 := rfl
  rw [e0] at h0
  rw [e1] at h1
  rw [e2] at h2
  rw [e3] at h3
  rw [e4] at h4
  rw [e5] at h5
  unfold ofBits6
  omega

theorem ofBits7_testBit (i : Nat) :
    ofBits7 (i.testBit 0) (i.testBit 1) (i.testBit 2) (i.testBit 3)
      (i.testBit 4) (i.testBit 5) (i.testBit 6) = i % 128 := by
  have h0 := Nat.toNat_testBit i 0
  have h1 := Nat.toNat_testBit i 1
  have h2 := Nat.toNat_testBit i 2
  have h3 := Nat.toNat_testBit i 3
  have h4 := Nat.toNat_testBit i 4
  have h5 := Nat.toNat_testBit i 5
  have h6 := Nat.toNat_testBit i 6
  have e0 : (2:Nat) ^ 0 = 1 := rfl
  have e1 : (2:Nat) ^ 1 = 2 := rfl
  have e2 : (2:Nat) ^ 2 = 4 := rfl
  have e3 : (2:Nat) ^ 3 = 8 := rfl
  have e4 : (2:Nat) ^ 4 = 16 := rfl
  have e5 : (2:Nat) ^ 5 = 32 := rfl
  have e6 : (2:Nat) ^ 6 = 64 := rfl
  rw [e0] at h0
  rw [e1] at h1
  rw [e2] at h2
  rw [e3] at h3
  rw [e4] at h4
  rw [e5] at h5
  rw [e6] at h6
  unfold ofBits7
  omega

theorem ofBits8_testBit (i : Nat) :
    ofBits8 (i.testBit 0) (i.testBit 1) (i.testBit 2) (i.testBit 3)
      (i.testBit 4) (i.testBit 5) (i.testBit 6) (i.testBit 7) = i % 256 := by
  have h0 := Nat.toNat_testBit i 0
  have h1 := Nat.toNat_testBit i 1
  have h2 := Nat.toNat_testBit i 2
  have h3 := Nat.toNat_testBit i 3
  have h4 := Nat.toNat_testBit i 4
  have h5 := Nat.toNat_testBit i 5
  have h6 := Nat.toNat_testBit i 6
  have h7 := Nat.toNat_testBit i 7
  have e0 : (2:Nat) ^ 0 = 1 := rfl
  have e1 : (2:Nat) ^ 1 = 2 := rfl
  have e2 : (2:Nat) ^ 2 = 4 := rfl
  have e3 : (2:Nat) ^ 3 = 8 := rfl
  have e4 : (2:Nat) ^ 4 = 16 := rfl
  have e5 : (2:Nat) ^ 5 = 32 := rfl
  have e6 : (2:Nat) ^ 6 = 64 := rfl
  have e7 : (2:Nat) ^ 7 = 128 := rfl
  rw [e0] at h0
  rw [e1] at h1
  rw [e2] at h2
  rw [e3] at h3
  rw [e4] at h4
  rw [e5] at h5
  rw [e6] at h6
  rw [e7] at h7
  unfold ofBits8
  omega

/-! ### Per-branch structure lemmas -/

theorem ipoly8_linear (a a' b b' : Nat) :
    ipoly8 (a ^^^ a') (b ^^^ b') = ipoly8 a b ^^^ ipoly8 a' b' := by
  unfold ipoly8
  rw [← ofBits3_xor]
  congr 1 <;> rw [parityAt_xor, Nat.testBit_xor] <;> exact bool_xor_xor_comm _ _ _ _

theorem ipoly16_linear (a a' b b' : Nat) :
    ipoly16 (a ^^^ a') (b ^^^ b') = ipoly16 a b ^^^ ipoly16 a' b' := by
  unfold ipoly16
  rw [← ofBits4_xor]
  congr 1 <;> rw [parityAt_xor, Nat.testBit_xor] <;> exact bool_xor_xor_comm _ _ _ _

theorem ipoly32_linear (a a' b b' : Nat) :
    ipoly32 (a ^^^ a') (b ^^^ b') = ipoly32 a b ^^^ ipoly32 a' b' := by
  unfold ipoly32
  rw [← ofBits5_xor]
  congr 1 <;> rw [parityAt_xor, Nat.testBit_xor] <;> exact bool_xor_xor_comm _ _ _ _

theorem ipoly64_linear (a a' b b' : Nat) :
    ipoly64 (a ^^^ a') (b ^^^ b') = ipoly64 a b ^^^ ipoly64 a' b' := by
  unfold ipoly64
  rw [← ofBits6_xor]
  congr 1 <;> rw [parityAt_xor, Nat.testBit_xor] <;> exact bool_xor_xor_comm _ _ _ _

theorem ipoly128_linear (a a' b b' : Nat) :
    ipoly128 (a ^^^ a') (b ^^^ b') = ipoly128 a b ^^^ ipoly128 a' b' := by
  unfold ipoly128
  rw [← ofBits7_xor]
  congr 1 <;> rw [parityAt_xor, Nat.testBit_xor] <;> exact bool_xor_xor_comm _ _ _ _

theorem ipoly256_linear (a a' b b' : Nat) :
    ipoly256 (a ^^^ a') (b ^^^ b') = ipoly256 a b ^^^ ipoly256 a' b' := by
  unfold ipoly256
  rw [← ofBits8_xor]
  congr 1 <;> rw [parityAt_xor, Nat.testBit_xor] <;> exact bool_xor_xor_comm _ _ _ _

theorem pae32_linear (a a' b b' : Nat) :
    pae32 (a ^^^ a') (b ^^^ b') = pae32 a b ^^^ pae32 a' b' := by
  unfold pae32
  rw [← ofBits5_xor]
  congr 1 <;> rw [parityAt_xor, parityAt_xor] <;> exact bool_xor_xor_comm _ _ _ _

theorem ipoly8_zero_high (i : Nat) : ipoly8 0 i = i % 8 := by
  unfold ipoly8
  simp only [parityAt_zero, Bool.false_xor]
  exact ofBits3_testBit i

theorem ipoly16_zero_high (i : Nat) : ipoly16 0 i = i % 16 := by
  unfold ipoly16
  simp only [parityAt_zero, Bool.false_xor]
  exact ofBits4_testBit i

theorem ipoly32_zero_high (i : Nat) : ipoly32 0 i = i % 32 := by
  unfold ipoly32
  simp only [parityAt_zero, Bool.false_xor]
  exact ofBits5_testBit i

theorem ipoly64_zero_high (i : Nat) : ipoly64 0 i = i % 64 := by
  unfold ipoly64
  simp only [parityAt_zero, Bool.false_xor]
  exact ofBits6_testBit i

theorem ipoly128_zero_high (i : Nat) : ipoly128 0 i = i % 128 := by
  unfold ipoly128
  simp only [parityAt_zero, Bool.false_xor]
  exact ofBits7_testBit i

theorem ipoly256_zero_high (i : Nat) : ipoly256 0 i = i % 256 := by
  unfold ipoly256
  simp only [parityAt_zero, Bool.false_xor]
  exact ofBits8_testBit i

theorem ipoly8_lt : ∀ a i : Nat, ipoly8 a i < 8 := by
  intro a i
  unfold ipoly8
  exact ofBits3_lt _ _ _

theorem ipoly16_lt : ∀ a i : Nat, ipoly16 a i < 16 := by
  intro a i
  unfold ipoly16
  exact ofBits4_lt _ _ _ _

theorem ipoly32_lt : ∀ a i : Nat, ipoly32 a i < 32 := by
  intro a i
  unfold ipoly32
  exact ofBits5_lt _ _ _ _ _

theorem ipoly64_lt : ∀ a i : Nat, ipoly64 a i < 64 := by
  intro a i
  unfold ipoly64
  exact ofBits6_lt _ _ _ _ _ _

theorem ipoly128_lt : ∀ a i : Nat, ipoly128 a i < 128 := by
  intro a i
  unfold ipoly128
  exact ofBits7_lt _ _ _ _ _ _ _

theorem ipoly256_lt : ∀ a i : Nat, ipoly256 a i < 256 := by
  intro a i
  unfold ipoly256
  exact ofBits8_lt _ _ _ _ _ _ _ _

theorem pae32_lt : ∀ a i : Nat, pae32 a i < 32 := by
  intro a i
  unfold pae32
  exact ofBits5_lt _ _ _ _ _

theorem ipoly8_decomp : ∀ a i : Nat, ipoly8 a i = ipoly8 a 0 ^^^ i % 8 := by
  intro a i
  have hl := ipoly8_linear a 0 0 i
  rw [Nat.xor_zero, Nat.zero_xor] at hl
  rw [hl, ipoly8_zero_high]

theorem ipoly16_decomp : ∀ a i : Nat, ipoly16 a i = ipoly16 a 0 ^^^ i % 16 := by
  intro a i
  have hl := ipoly16_linear a 0 0 i
  rw [Nat.xor_zero, Nat.zero_xor] at hl
  rw [hl, ipoly16_zero_high]

theorem ipoly32_decomp : ∀ a i : Nat, ipoly32 a i = ipoly32 a 0 ^^^ i % 32 := by
  intro a i
  have hl := ipoly32_linear a 0 0 i
  rw [Nat.xor_zero, Nat.zero_xor] at hl
  rw [hl, ipoly32_zero_high]

theorem ipoly64_decomp : ∀ a i : Nat, ipoly64 a i = ipoly64 a 0 ^^^ i % 64 := by
  intro a i
  have hl := ipoly64_linear a 0 0 i
  rw [Nat.xor_zero, Nat.zero_xor] at hl
  rw [hl, ipoly64_zero_high]

theorem ipoly128_decomp : ∀ a i : Nat, ipoly128 a i = ipoly128 a 0 ^^^ i % 128 := by
  intro a i
  have hl := ipoly128_linear a 0 0 i
  rw [Nat.xor_zero, Nat.zero_xor] at hl
  rw [hl, ipoly128_zero_high]

theorem ipoly256_decomp : ∀ a i : Nat, ipoly256 a i = ipoly256 a 0 ^^^ i % 256 := by
  intro a i
  have hl := ipoly256_linear a 0 0 i
  rw [Nat.xor_zero, Nat.zero_xor] at hl
  rw [hl, ipoly256_zero_high]

/-! ### Dispatcher evaluation lemmas -/

theorem ipoly_hash_at_8 (a i : Nat) :
    ipoly_hash_function a i 8 = some (ipoly8 a i) := rfl

theorem ipoly_hash_at_16 (a i : Nat) :
    ipoly_hash_function a i 16 = some (ipoly16 a i) := rfl

theorem ipoly_hash_at_32 (a i : Nat) :
    ipoly_hash_function a i 32 = some (ipoly32 a i) := rfl

theorem ipoly_hash_at_64 (a i : Nat) :
    ipoly_hash_function a i 64 = some (ipoly64 a i) := rfl

theorem ipoly_hash_at_128 (a i : Nat) :
    ipoly_hash_function a i 128 = some (ipoly128 a i) := rfl

theorem ipoly_hash_at_256 (a i : Nat) :
    ipoly_hash_function a i 256 = some (ipoly256 a i) := rfl

theorem pae_hash_at_32 (a i : Nat) :
    PAE_hash_function a i 32 = some (pae32 a i) := rfl

/-! ### XOR-with-a-constant is a bijection on a power-of-two range -/

theorem xor_const_bij (g : Nat → Nat) (e n k : Nat) (hnk : n = 2 ^ k)
    (he : e < n) (hg : ∀ i, i < n → g i = e ^^^ i) :
    ((Finset.range n).image g = Finset.range n) ∧
      (∀ i j, i < n → j < n → g i = g j → i = j) := by
  subst hnk
  constructor
  · ext x
    simp only [Finset.mem_image, Finset.mem_range]
    constructor
    · rintro ⟨i, hi, rfl⟩
      rw [hg i hi]
      exact Nat.xor_lt_two_pow he hi
    · intro hx
      refine ⟨e ^^^ x, Nat.xor_lt_two_pow he hx, ?_⟩
      rw [hg _ (Nat.xor_lt_two_pow he hx), ← Nat.xor_assoc, Nat.xor_self,
        Nat.zero_xor]
  · intro i j hi hj hij
    rw [hg i hi, hg j hj] at hij
    have h2 : e ^^^ (e ^^^ i) = e ^^^ (e ^^^ j) := by rw [hij]
    rwa [← Nat.xor_assoc, ← Nat.xor_assoc, Nat.xor_self, Nat.zero_xor,
      Nat.zero_xor] at h2

theorem ipoly_branch_bij (h n k : Nat) (hnk : n = 2 ^ k) (f : Nat → Nat → Nat)
    (heval : ∀ x i, ipoly_hash_function x i n = some (f x i))
    (hlt : ∀ x i, f x i < n) (hdec : ∀ x i, f x i = f x 0 ^^^ i % n) :
    ((Finset.range n).image (fun i => (ipoly_hash_function h i n).getD 0) =
        Finset.range n) ∧
      (∀ i j, i < n → j < n →
        ipoly_hash_function h i n = ipoly_hash_function h j n → i = j) := by
  have hg : ∀ i, i < n → (ipoly_hash_function h i n).getD 0 = f h 0 ^^^ i := by
    intro i hi
    rw [heval, Option.getD_some, hdec, Nat.mod_eq_of_lt hi]
  have hb := xor_const_bij (fun i => (ipoly_hash_function h i n).getD 0)
    (f h 0) n k hnk (hlt h 0) hg
  refine ⟨hb.1, ?_⟩
  intro i j hi hj hij
  exact hb.2 i j hi hj (congrArg (fun o : Option Nat => o.getD 0) hij)

/-! ### Claim theorems -/

/-- Claim C1: for every bank count in {8, 16, 32, 64, 128, 256} and every
fixed value of the high bits, the map from an index in [0, bank_count) to
its IPOLY-hashed index is a bijection on [0, bank_count): the image of
the index range is exactly the index range, and distinct raw indices
always map to distinct hashed indices. -/
theorem ipoly_fixed_high_bijection (h n : Nat)
    (hn : n = 8 ∨ n = 16 ∨ n = 32 ∨ n = 64 ∨ n = 128 ∨ n = 256) :
    ((Finset.range n).image (fun i => (ipoly_hash_function h i n).getD 0) =
        Finset.range n) ∧
      (∀ i j, i < n → j < n →
        ipoly_hash_function h i n = ipoly_hash_function h j n → i = j) := by
  rcases hn with rfl | rfl | rfl | rfl | rfl | rfl
  · exact ipoly_branch_bij h 8 3 (by norm_num) ipoly8 ipoly_hash_at_8
      ipoly8_lt ipoly8_decomp
  · exact ipoly_branch_bij h 16 4 (by norm_num) ipoly16 ipoly_hash_at_16
      ipoly16_lt ipoly16_decomp
  · exact ipoly_branch_bij h 32 5 (by norm_num) ipoly32 ipoly_hash_at_32
      ipoly32_lt ipoly32_decomp
  · exact ipoly_branch_bij h 64 6 (by norm_num) ipoly64 ipoly_hash_at_64
      ipoly64_lt ipoly64_decomp
  · exact ipoly_branch_bij h 128 7 (by norm_num) ipoly128 ipoly_hash_at_128
      ipoly128_lt ipoly128_decomp
  · exact ipoly_branch_bij h 256 8 (by norm_num) ipoly256 ipoly_hash_at_256
      ipoly256_lt ipoly256_decomp

/-- Witness for C1 at high bits 3 and bank count 8. -/
theorem ipoly_fixed_high_bijection_witness :
    (Finset.range 8).image (fun i => (ipoly_hash_function 3 i 8).getD 0) =
      Finset.range 8 :=
  (ipoly_fixed_high_bijection 3 8 (Or.inl rfl)).1

/-- Claim C2 counterexample: the PAE hash at bank count 32 is not
injective on the 5-bit index domain — the distinct indices 0 and 17
receive the same hashed index (both map to `some 0`), so the map is not
a bijection on [0, 32). -/
theorem pae_not_injective_counterexample :
    PAE_hash_function 0 0 32 = PAE_hash_function 0 17 32 ∧ (0 : Nat) ≠ 17 := by
  decide

/-- Claim C2, amended: for bank count 32 and every fixed value of the
high bits, the PAE hash is not injective on the 5-bit index domain: for
every index i, the distinct indices i and i XOR 17 always map to the
same hashed index (the duplicated self-cancelling index bits of the
source rows make the index-bit matrix singular, with kernel {0, 17}). -/
theorem pae_collision_xor17 (h i : Nat) :
    PAE_hash_function h i 32 = PAE_hash_function h (i ^^^ 17) 32 ∧
      i ^^^ 17 ≠ i := by
  constructor
  · rw [pae_hash_at_32, pae_hash_at_32]
    refine congrArg some ?_
    have hl := pae32_linear h 0 i 17
    rw [Nat.xor_zero] at hl
    rw [hl, (by decide : pae32 0 17 = 0), Nat.xor_zero]
  · intro hcon
    have h2 := congrArg (fun t => i ^^^ t) hcon
    simp only [← Nat.xor_assoc, Nat.xor_self, Nat.zero_xor] at h2
    exact absurd h2 (by norm_num)

/-- Claim C3: for every supported bank count the IPOLY hash result, and
for bank count 32 the PAE hash result, lies in [0, bank_count). -/
theorem hash_result_range (h i n : Nat) :
    ((n = 8 ∨ n = 16 ∨ n = 32 ∨ n = 64 ∨ n = 128 ∨ n = 256) →
        ∀ r, ipoly_hash_function h i n = some r → r < n) ∧
      (∀ r, PAE_hash_function h i 32 = some r → r < 32) := by
  constructor
  · rintro (rfl | rfl | rfl | rfl | rfl | rfl) r hr
    · rw [ipoly_hash_at_8] at hr
      injection hr with h2
      subst h2
      exact ipoly8_lt h i
    · rw [ipoly_hash_at_16] at hr
      injection hr with h2
      subst h2
      exact ipoly16_lt h i
    · rw [ipoly_hash_at_32] at hr
      injection hr with h2
      subst h2
      exact ipoly32_lt h i
    · rw [ipoly_hash_at_64] at hr
      injection hr with h2
      subst h2
      exact ipoly64_lt h i
    · rw [ipoly_hash_at_128] at hr
      injection hr with h2
      subst h2
      exact ipoly128_lt h i
    · rw [ipoly_hash_at_256] at hr
      injection hr with h2
      subst h2
      exact ipoly256_lt h i
  · intro r hr
    rw [pae_hash_at_32] at hr
    injection hr with h2
    subst h2
    exact pae32_lt h i

/-- Witness for C3 at high bits 0, index 0, bank count 8. -/
theorem hash_result_range_witness : (0 : Nat) < 8 ∧ (0 : Nat) < 32 :=
  ⟨(hash_result_range 0 0 8).1 (Or.inl rfl) 0 rfl,
   (hash_result_range 0 0 8).2 0 rfl⟩

/-- Claim C4: with high bits 0 and bank count in {8, 16, 64, 128}, the
IPOLY hash of an index in range is the index itself; in particular the
hash of index 5 at bank count 8 is 5. -/
theorem ipoly_identity_zero_high (i n : Nat)
    (hn : n = 8 ∨ n = 16 ∨ n = 64 ∨ n = 128) (hi : i < n) :
    ipoly_hash_function 0 i n = some i ∧ ipoly_hash_function 0 5 8 = some 5 := by
  refine ⟨?_, by decide⟩
  rcases hn with rfl | rfl | rfl | rfl
  · rw [ipoly_hash_at_8, ipoly8_zero_high, Nat.mod_eq_of_lt hi]
  · rw [ipoly_hash_at_16, ipoly16_zero_high, Nat.mod_eq_of_lt hi]
  · rw [ipoly_hash_at_64, ipoly64_zero_high, Nat.mod_eq_of_lt hi]
  · rw [ipoly_hash_at_128, ipoly128_zero_high, Nat.mod_eq_of_lt hi]

/-- Witness for C4 at index 5, bank count 8. -/
theorem ipoly_identity_zero_high_witness : ipoly_hash_function 0 5 8 = some 5 :=
  (ipoly_identity_zero_high 5 8 (Or.inl rfl) (by norm_num)).1

/-- Claim C5 counterexample: for bank count 32 and high bits 0, the
IPOLY hash is the identity on every index in [0, 32) — contrary to the
claim that some index is moved by cross-terms among index bits. -/
theorem ipoly32_identity_counterexample :
    ((List.range 32).all fun i => ipoly_hash_function 0 i 32 == some i) = true := by
  decide

/-- Claim C5, amended: for bank count 32 the IPOLY hash has no
cross-terms among raw-index bits — the hashed index is a value depending
only on the high bits XORed with the low 5 index bits, so output bit k
depends on no raw-index bit other than bit k; consequently for high bits
0 the hash of any index is the index reduced modulo 32 (in particular
the identity on [0, 32)). -/
theorem ipoly32_index_decomposition (h i : Nat) :
    ipoly_hash_function h i 32 = some (ipoly32 h 0 ^^^ i % 32) ∧
      ipoly_hash_function 0 i 32 = some (i % 32) := by
  constructor
  · rw [ipoly_hash_at_32]
    exact congrArg some (ipoly32_decomp h i)
  · rw [ipoly_hash_at_32, ipoly32_zero_high]

/-- Claim C6: the bitwise hash is the raw index XORed with the high bits
masked to bank_count − 1, with no internal validation of the bank count;
in particular at bank count 32 it is the index XOR the low 5 high bits.
The hypotheses record the 32-bit unsigned argument ranges of the C++
signature under which the wrap-free reading of bank_count − 1 holds. -/
theorem bitwise_hash_masking (h i n : Nat) (hi : i < 2 ^ 32) (hn1 : 1 ≤ n)
    (hn2 : n < 2 ^ 32) :
    bitwise_hash_function h i n = i ^^^ h &&& (n - 1) ∧
      bitwise_hash_function h i 32 = i ^^^ h &&& 31 := by
  have e32 : (2 : Nat) ^ 32 = 4294967296 := by norm_num
  rw [e32] at hi hn2
  have key : ∀ m, 1 ≤ m → m < 4294967296 →
      bitwise_hash_function h i m = i ^^^ h &&& (m - 1) := by
    intro m hm1 hm2
    unfold bitwise_hash_function
    have hmod : (m + 4294967295) % 4294967296 = m - 1 := by omega
    rw [hmod]
    have hmask : h &&& (m - 1) < 4294967296 := by
      have hle : h &&& (m - 1) ≤ m - 1 := Nat.and_le_right
      omega
    have hxor : i ^^^ h &&& (m - 1) < 4294967296 := by
      rw [← e32] at hi hmask ⊢
      exact Nat.xor_lt_two_pow hi hmask
    exact Nat.mod_eq_of_lt hxor
  refine ⟨key n hn1 hn2, ?_⟩
  have h32 := key 32 (by norm_num) (by norm_num)
  norm_num at h32
  exact h32

/-- Witness for C6 at the literal example of the spec. -/
theorem bitwise_hash_masking_witness :
    bitwise_hash_function 0b10101 0b00101 32 = 0b00101 ^^^ 0b10101 &&& 31 :=
  (bitwise_hash_masking 0b10101 0b00101 32 (by norm_num) (by norm_num)
    (by norm_num)).2

/-- Claim C7 counterexample: the second literal worked example of the
spec is wrong on the code — hashing index 0b00101 with high bits 0b10101
at bank count 32 yields 0b10000 (the XOR of 0b00101 with the masked low
five high bits 0b10101), not 0b00000. -/
theorem bitwise_hash_example_counterexample :
    bitwise_hash_function 0b10101 0b00101 32 ≠ 0b00000 := by
  decide

/-- Claim C7, amended: the first literal worked example holds,
`bitwise_hash(0b100000, 0b00101, 32) = 0b00101`; on the second input the
code yields `bitwise_hash(0b10101, 0b00101, 32) = 0b10000` (the XOR of
the index 0b00101 with the masked high bits 0b10101), not 0b00000. -/
theorem bitwise_hash_examples :
    bitwise_hash_function 0b100000 0b00101 32 = 0b00101 ∧
      bitwise_hash_function 0b10101 0b00101 32 = 0b10000 := by
  decide

/-- Claim C8: calling the IPOLY hash with a bank count outside
{8, 16, 32, 64, 128, 256}, or the PAE hash with a bank count other than
32, reaches the always-failing assertion branch (modelled as `none`)
instead of returning a hashed index; for every supported bank count the
error branch is unreachable (the result is always `some`). -/
theorem hash_unsupported_bank_fatal :
    (∀ h i n, ¬(n = 8 ∨ n = 16 ∨ n = 32 ∨ n = 64 ∨ n = 128 ∨ n = 256) →
        ipoly_hash_function h i n = none) ∧
      (∀ h i n, n ≠ 32 → PAE_hash_function h i n = none) ∧
      (∀ h i n, (n = 8 ∨ n = 16 ∨ n = 32 ∨ n = 64 ∨ n = 128 ∨ n = 256) →
        (ipoly_hash_function h i n).isSome = true) ∧
      (∀ h i, (PAE_hash_function h i 32).isSome = true) := by
  refine ⟨?_, ?_, ?_, ?_⟩
  · intro h i n hn
    push_neg at hn
    obtain ⟨h8, h16, h32, h64, h128, h256⟩ := hn
    unfold ipoly_hash_function
    rw [if_neg h8, if_neg h16, if_neg h32, if_neg h64, if_neg h128, if_neg h256]
  · intro h i n hn
    unfold PAE_hash_function
    rw [if_neg hn]
  · rintro h i n (rfl | rfl | rfl | rfl | rfl | rfl) <;> rfl
  · intro h i
    rfl

/-- Witness for C8 at the unsupported bank counts named by the spec. -/
theorem hash_unsupported_bank_fatal_witness :
    ipoly_hash_function 0 0 7 = none ∧ PAE_hash_function 0 0 64 = none :=
  ⟨hash_unsupported_bank_fatal.1 0 0 7 (by decide),
   hash_unsupported_bank_fatal.2.1 0 0 64 (by decide)⟩

/-- Claim C9: for every fixed supported bank count, the IPOLY hash (and,
at bank count 32, the PAE hash) is linear over GF(2) in the pair of
arguments: hashing the componentwise XOR of two argument pairs yields
the XOR of the two hashed indices, and hashing (0, 0) yields 0. -/
theorem hash_gf2_linear (n a a' b b' : Nat)
    (hn : n = 8 ∨ n = 16 ∨ n = 32 ∨ n = 64 ∨ n = 128 ∨ n = 256) :
    (ipoly_hash_function (a ^^^ a') (b ^^^ b') n =
        some ((ipoly_hash_function a b n).getD 0 ^^^
          (ipoly_hash_function a' b' n).getD 0)) ∧
      ipoly_hash_function 0 0 n = some 0 ∧
      (PAE_hash_function (a ^^^ a') (b ^^^ b') 32 =
        some ((PAE_hash_function a b 32).getD 0 ^^^
          (PAE_hash_function a' b' 32).getD 0)) ∧
      PAE_hash_function 0 0 32 = some 0 := by
  refine ⟨?_, ?_, ?_, rfl⟩
  · rcases hn with rfl | rfl | rfl | rfl | rfl | rfl
    · rw [ipoly_hash_at_8, ipoly_hash_at_8, ipoly_hash_at_8, Option.getD_some,
        Option.getD_some]
      exact congrArg some (ipoly8_linear a a' b b')
    · rw [ipoly_hash_at_16, ipoly_hash_at_16, ipoly_hash_at_16,
        Option.getD_some, Option.getD_some]
      exact congrArg some (ipoly16_linear a a' b b')
    · rw [ipoly_hash_at_32, ipoly_hash_at_32, ipoly_hash_at_32,
        Option.getD_some, Option.getD_some]
      exact congrArg some (ipoly32_linear a a' b b')
    · rw [ipoly_hash_at_64, ipoly_hash_at_64, ipoly_hash_at_64,
        Option.getD_some, Option.getD_some]
      exact congrArg some (ipoly64_linear a a' b b')
    · rw [ipoly_hash_at_128, ipoly_hash_at_128, ipoly_hash_at_128,
        Option.getD_some, Option.getD_some]
      exact congrArg some (ipoly128_linear a a' b b')
    · rw [ipoly_hash_at_256, ipoly_hash_at_256, ipoly_hash_at_256,
        Option.getD_some, Option.getD_some]
      exact congrArg some (ipoly256_linear a a' b b')
  · rcases hn with rfl | rfl | rfl | rfl | rfl | rfl <;> rfl
  · rw [pae_hash_at_32, pae_hash_at_32, pae_hash_at_32, Option.getD_some,
      Option.getD_some]
    exact congrArg some (pae32_linear a a' b b')

/-- Witness for C9 at bank count 8 with argument pairs (5, 2), (3, 1). -/
theorem hash_gf2_linear_witness :
    ipoly_hash_function (5 ^^^ 3) (2 ^^^ 1) 8 =
      some ((ipoly_hash_function 5 2 8).getD 0 ^^^
        (ipoly_hash_function 3 1 8).getD 0) :=
  (hash_gf2_linear 8 5 3 2 1 (Or.inl rfl)).1

/-- Claim C10: the bitwise hash performs no range reduction on the index
argument — for a power-of-two bank count below 2^32 and any high bits,
an index below the bank count hashes below the bank count, but the
out-of-range index equal to the bank count (with high bits 0) hashes to
a value not below the bank count. -/
theorem bitwise_no_range_reduction (h n k : Nat) (hk : n = 2 ^ k)
    (hn : n < 2 ^ 32) :
    (∀ i, i < n → bitwise_hash_function h i n < n) ∧
      n ≤ bitwise_hash_function 0 n n := by
  have e32 : (2 : Nat) ^ 32 = 4294967296 := by norm_num
  rw [e32] at hn
  have hn1 : 1 ≤ n := by
    rw [hk]
    exact Nat.two_pow_pos k
  constructor
  · intro i hi
    unfold bitwise_hash_function
    have hmod : (n + 4294967295) % 4294967296 = n - 1 := by omega
    rw [hmod]
    have hmask : h &&& (n - 1) < n := by
      have hle : h &&& (n - 1) ≤ n - 1 := Nat.and_le_right
      omega
    have hxor : i ^^^ h &&& (n - 1) < n := by
      rw [hk] at hi hmask ⊢
      exact Nat.xor_lt_two_pow hi hmask
    rw [Nat.mod_eq_of_lt (by omega : i ^^^ h &&& (n - 1) < 4294967296)]
    exact hxor
  · unfold bitwise_hash_function
    rw [Nat.zero_and, Nat.xor_zero, Nat.mod_eq_of_lt (by omega : n < 4294967296)]

/-- Witness for C10 at high bits 21, bank count 32, indices 5 and 32. -/
theorem bitwise_no_range_reduction_witness :
    bitwise_hash_function 21 5 32 < 32 ∧ 32 ≤ bitwise_hash_function 0 32 32 :=
  ⟨(bitwise_no_range_reduction 21 32 5 (by norm_num) (by norm_num)).1 5
      (by norm_num),
   (bitwise_no_range_reduction 21 32 5 (by norm_num) (by norm_num)).2⟩
